import Mathlib

/-!
Shallow embedding of the persistence core of the Facturas2 expense tracker
(`database.py`): two tables (`tipos_gasto`, `facturas`), CRUD operations,
aggregate queries, seed-data initialization, and the legacy JSON importer.

Strings are processed at the character-list level so that all definitions
reduce in the kernel.  Dates are kept as strings, exactly as in the SQLite
schema (`fecha DATE` receives TEXT values such as `"2024-01-15"`); SQLite's
BINARY collation on these values is modelled by code-point lexicographic
comparison, which agrees with byte-wise UTF-8 comparison.  Monetary values
are modelled as integers: no claim under consideration depends on
floating-point behaviour, only on which rows appear and how they are
counted and grouped.
-/

namespace Facturas2

/-! ### Character-level string utilities -/

/-- Code-point lexicographic "less or equal" on character lists.  Models the
BINARY collation SQLite uses for `TEXT` comparisons (`BETWEEN`, `ORDER BY`). -/
def chLe : List Char → List Char → Bool
  | [], _ => true
  | _ :: _, [] => false
  | a :: as, b :: bs =>
    if a.toNat < b.toNat then true
    else if b.toNat < a.toNat then false
    else chLe as bs

/-- Split a character list at every occurrence of `sep` (like `str.split`). -/
def splitCh (sep : Char) : List Char → List (List Char)
  | [] => [[]]
  | c :: cs =>
    let r := splitCh sep cs
    if c == sep then [] :: r
    else
      match r with
      | [] => [[c]]
      | h :: t => (c :: h) :: t

/-- ASCII lowercase of one character: models SQLite's `LOWER`, which only
folds the ASCII range `A`–`Z`. -/
def lowerCh (c : Char) : Char :=
  if 65 ≤ c.toNat && c.toNat ≤ 90 then Char.ofNat (c.toNat + 32) else c

/-- ASCII lowercase of a string (SQLite `LOWER`). -/
def lowerStr (s : String) : String := ⟨s.data.map lowerCh⟩

/-- Numeric value of a nonempty all-digit character list; `none` otherwise. -/
def digitsVal (cs : List Char) : Option Nat :=
  if 0 < cs.length && cs.all (·.isDigit) then
    some (cs.foldl (fun acc c => acc * 10 + (c.toNat - 48)) 0)
  else none

/-- The character for a single decimal digit. -/
def digitCh : Nat → Char
  | 0 => '0' | 1 => '1' | 2 => '2' | 3 => '3' | 4 => '4'
  | 5 => '5' | 6 => '6' | 7 => '7' | 8 => '8' | _ => '9'

/-- Two-digit zero-padded rendering (strftime `%d` / `%m`). -/
def pad2 (n : Nat) : List Char := [digitCh (n / 10 % 10), digitCh (n % 10)]

/-- Year rendering (strftime `%Y` on glibc: the decimal digits, no padding;
years produced by the parser are at most four digits). -/
def yearChars (y : Nat) : List Char :=
  if y < 10 then [digitCh y]
  else if y < 100 then [digitCh (y / 10), digitCh (y % 10)]
  else if y < 1000 then [digitCh (y / 100), digitCh (y / 10 % 10), digitCh (y % 10)]
  else [digitCh (y / 1000 % 10), digitCh (y / 100 % 10), digitCh (y / 10 % 10), digitCh (y % 10)]

/-! ### Date parsing and formatting

`strptime(s, '%d/%m/%Y')` matches `%d` against one or two digits valued
1–31, `%m` against one or two digits valued 1–12, `%Y` against exactly four
digits, with the separators as literals and no text left over; the resulting
triple must then be a valid proleptic-Gregorian calendar date with year at
least 1, else `ValueError` is raised. -/

/-- Accept a `%d` field: one or two digits, value 1–31. -/
def matchDay (cs : List Char) : Option Nat :=
  match digitsVal cs with
  | some v => if cs.length ≤ 2 && 1 ≤ v && v ≤ 31 then some v else none
  | none => none

/-- Accept a `%m` field: one or two digits, value 1–12. -/
def matchMonth (cs : List Char) : Option Nat :=
  match digitsVal cs with
  | some v => if cs.length ≤ 2 && 1 ≤ v && v ≤ 12 then some v else none
  | none => none

/-- Accept a `%Y` field: exactly four digits. -/
def matchYear (cs : List Char) : Option Nat :=
  match digitsVal cs with
  | some v => if cs.length == 4 then some v else none
  | none => none

/-- Gregorian leap-year rule used by `datetime`. -/
def isLeap (y : Nat) : Bool := (y % 4 == 0 && y % 100 != 0) || y % 400 == 0

/-- Days in a month (`datetime` validation). -/
def daysInMonth (y m : Nat) : Nat :=
  if m == 2 then (if isLeap y then 29 else 28)
  else if m == 4 || m == 6 || m == 9 || m == 11 then 30
  else 31

/-- `datetime(y, m, d)` constructor validity (year at least `MINYEAR = 1`). -/
def validDate (y m d : Nat) : Bool :=
  1 ≤ y && 1 ≤ m && m ≤ 12 && 1 ≤ d && d ≤ daysInMonth y m

/-- `datetime.strptime(s, '%d/%m/%Y')`, returning `(day, month, year)`;
`none` models the `ValueError` path. -/
def parseDMY (s : String) : Option (Nat × Nat × Nat) :=
  match splitCh '/' s.data with
  | [ds, ms, ys] =>
    match matchDay ds, matchMonth ms, matchYear ys with
    | some d, some m, some y => if validDate y m d then some (d, m, y) else none
    | _, _, _ => none
  | _ => none

/-- `datetime.strptime(s, '%Y-%m-%d')`, returning `(year, month, day)`. -/
def parseISO (s : String) : Option (Nat × Nat × Nat) :=
  match splitCh '-' s.data with
  | [ys, ms, ds] =>
    match matchYear ys, matchMonth ms, matchDay ds with
    | some y, some m, some d => if validDate y m d then some (y, m, d) else none
    | _, _, _ => none
  | _ => none

/-- `strftime('%Y-%m-%d')` on a date given as `(day, month, year)`. -/
def fmtISO (d m y : Nat) : String :=
  ⟨yearChars y ++ '-' :: pad2 m ++ '-' :: pad2 d⟩

/-- `strftime('%d/%m/%Y')` on a date given as `(day, month, year)`. -/
def fmtDMY (d m y : Nat) : String :=
  ⟨pad2 d ++ '/' :: pad2 m ++ '/' :: yearChars y⟩

/-! ### Data model

`tipos_gasto(id, nombre UNIQUE, descripcion, color)` and
`facturas(id, fecha, tipo_id, descripcion, valor, ...)`.  The two
`AUTOINCREMENT` counters are carried explicitly; the two timestamp columns
are never read back by any operation under study and are omitted. -/

structure TipoGasto where
  id : Nat
  nombre : String
  descripcion : Option String
  color : Option String
deriving DecidableEq

structure Factura where
  id : Nat
  fecha : String
  tipo_id : Nat
  descripcion : String
  valor : Int
deriving DecidableEq

structure DBState where
  tipos : List TipoGasto
  facturas : List Factura
  nextTipoId : Nat
  nextFacturaId : Nat
deriving DecidableEq

/-- A fresh database before table creation (SQLite rowids start at 1). -/
def emptyDB : DBState := ⟨[], [], 1, 1⟩

/-- `SELECT ... FROM tipos_gasto WHERE nombre = ?` (BINARY equality). -/
def findTipoByNombre (tipos : List TipoGasto) (n : String) : Option TipoGasto :=
  tipos.find? (·.nombre == n)

/-- Row lookup by id for the `JOIN ... ON f.tipo_id = tg.id` read path. -/
def findTipoById (tipos : List TipoGasto) (tid : Nat) : Option TipoGasto :=
  tipos.find? (·.id == tid)

/-! ### Write-path helpers -/

/-- The `SELECT id FROM tipos_gasto WHERE nombre = ?` /
`INSERT INTO tipos_gasto (nombre) VALUES (?)` sequence shared verbatim by
`agregar_factura`, `actualizar_factura` and `migrar_desde_json`: resolve a
category name to its id, creating a bare category (NULL description and
color) when no row matches. -/
def resolveOrCreateTipo (s : DBState) (n : String) : Nat × DBState :=
  match findTipoByNombre s.tipos n with
  | some t => (t.id, s)
  | none =>
    (s.nextTipoId,
      { s with
        tipos := s.tipos ++ [⟨s.nextTipoId, n, none, none⟩]
        nextTipoId := s.nextTipoId + 1 })

/-- The shared date-normalization fragment: `strptime('%d/%m/%Y')` then
`strftime('%Y-%m-%d')`, falling back to `datetime.now()` (passed in as
`todayISO`) when parsing raises. -/
def normFecha (todayISO : String) (fecha : String) : String :=
  match parseDMY fecha with
  | some (d, m, y) => fmtISO d m y
  | none => todayISO

/-! ### Operations -/

/-- `Database.agregar_factura`: resolve-or-create the category, normalize
the date, insert the record, return `cursor.lastrowid`. -/
def agregar_factura (todayISO : String) (s : DBState)
    (fecha tipo descripcion : String) (valor : Int) : Nat × DBState :=
  let r := resolveOrCreateTipo s tipo
  let fechaDb := normFecha todayISO fecha
  (r.2.nextFacturaId,
    { r.2 with
      facturas := r.2.facturas ++ [⟨r.2.nextFacturaId, fechaDb, r.1, descripcion, valor⟩]
      nextFacturaId := r.2.nextFacturaId + 1 })

/-- `Database.actualizar_factura` (fault-free path): resolve-or-create the
category, normalize the date, `UPDATE ... WHERE id = ?`, return
`cursor.rowcount > 0`. -/
def actualizar_factura (todayISO : String) (s : DBState) (facturaId : Nat)
    (fecha tipo descripcion : String) (valor : Int) : Bool × DBState :=
  let r := resolveOrCreateTipo s tipo
  let fechaDb := normFecha todayISO fecha
  (r.2.facturas.any (·.id == facturaId),
    { r.2 with
      facturas := r.2.facturas.map fun f =>
        if f.id == facturaId then
          { f with fecha := fechaDb, tipo_id := r.1, descripcion := descripcion, valor := valor }
        else f })

/-- `Database.eliminar_factura` (fault-free path): `DELETE ... WHERE id = ?`,
return `cursor.rowcount > 0`. -/
def eliminar_factura (s : DBState) (facturaId : Nat) : Bool × DBState :=
  (s.facturas.any (·.id == facturaId),
    { s with facturas := s.facturas.filter fun f => !(f.id == facturaId) })

/-- Faults the underlying store can raise during a write. -/
inductive StorageWriteError
  | writeFault
deriving DecidableEq

/-- The `try:` body of `actualizar_factura`: if the store faults anywhere in
the block, the exception leaves the body (the connection context manager
rolls the transaction back). -/
def actualizar_factura_attempt (storeFault : Bool) (todayISO : String) (s : DBState)
    (facturaId : Nat) (fecha tipo descripcion : String) (valor : Int) :
    Except StorageWriteError (Bool × DBState) :=
  if storeFault then Except.error StorageWriteError.writeFault
  else Except.ok (actualizar_factura todayISO s facturaId fecha tipo descripcion valor)

/-- `actualizar_factura` as the caller observes it: the
`except Exception: ... return False` handler catches every store fault and
turns it into the boolean result `False` over the rolled-back state. -/
def actualizar_factura_run (storeFault : Bool) (todayISO : String) (s : DBState)
    (facturaId : Nat) (fecha tipo descripcion : String) (valor : Int) :
    Except StorageWriteError (Bool × DBState) :=
  match actualizar_factura_attempt storeFault todayISO s facturaId fecha tipo descripcion valor with
  | Except.error _ => Except.ok (false, s)
  | Except.ok r => Except.ok r

/-- The `try:` body of `eliminar_factura`. -/
def eliminar_factura_attempt (storeFault : Bool) (s : DBState) (facturaId : Nat) :
    Except StorageWriteError (Bool × DBState) :=
  if storeFault then Except.error StorageWriteError.writeFault
  else Except.ok (eliminar_factura s facturaId)

/-- `eliminar_factura` as the caller observes it: store faults are caught by
`except Exception: ... return False`. -/
def eliminar_factura_run (storeFault : Bool) (s : DBState) (facturaId : Nat) :
    Except StorageWriteError (Bool × DBState) :=
  match eliminar_factura_attempt storeFault s facturaId with
  | Except.error _ => Except.ok (false, s)
  | Except.ok r => Except.ok r

/-! ### Read path -/

/-- One row of the `obtener_facturas` result:
`f.id, f.fecha, tg.nombre AS tipo, f.descripcion, f.valor, tg.color`. -/
structure FacturaView where
  id : Nat
  fecha : String
  tipo : String
  descripcion : String
  valor : Int
  color : Option String
deriving DecidableEq

/-- `FROM facturas f JOIN tipos_gasto tg ON f.tipo_id = tg.id`. -/
def joinFacturas (s : DBState) : List FacturaView :=
  s.facturas.filterMap fun f =>
    (findTipoById s.tipos f.tipo_id).map fun t =>
      ⟨f.id, f.fecha, t.nombre, f.descripcion, f.valor, t.color⟩

/-- The Python truthiness test `if fecha_inicio and fecha_fin:` that guards
the range filter in `obtener_facturas` and `obtener_resumen_por_tipo`:
`None` and the empty string are both falsy, so the filter is applied only
when both bounds are present and nonempty. -/
def activeBounds (fi ff : Option String) : Option (String × String) :=
  match fi, ff with
  | some a, some b => if a == "" || b == "" then none else some (a, b)
  | _, _ => none

/-- `fecha BETWEEN ? AND ?` under BINARY collation. -/
def fechaInRange (a b fecha : String) : Bool :=
  chLe a.data fecha.data && chLe fecha.data b.data

/-- `ORDER BY f.fecha DESC` comparison on joined rows. -/
def fvDescLe (x y : FacturaView) : Bool := chLe y.fecha.data x.fecha.data

/-- The `obtener_facturas` query before the per-row date display conversion:
join, optional `BETWEEN` filter, `ORDER BY f.fecha DESC`. -/
def obtener_facturas_rows (fi ff : Option String) (s : DBState) : List FacturaView :=
  let rows := joinFacturas s
  let filtered :=
    match activeBounds fi ff with
    | some (a, b) => rows.filter fun v => fechaInRange a b v.fecha
    | none => rows
  List.insertionSort (fun x y => fvDescLe x y = true) filtered

/-- The per-row display conversion in `obtener_facturas`: reparse the stored
date as ISO and reformat as `DD/MM/YYYY`; on failure the row keeps its
stored value (`except ...: pass`). -/
def displayFecha (fecha : String) : String :=
  match parseISO fecha with
  | some (y, m, d) => fmtDMY d m y
  | none => fecha

/-- `Database.obtener_facturas`. -/
def obtener_facturas (fi ff : Option String) (s : DBState) : List FacturaView :=
  (obtener_facturas_rows fi ff s).map fun v => { v with fecha := displayFecha v.fecha }

/-- The legacy exclusion filter of `obtener_tipos_gasto`:
`LOWER(nombre) IN ('coche', 'coches')`. -/
def excludedNombre (n : String) : Bool :=
  lowerStr n == "coche" || lowerStr n == "coches"

/-- `ORDER BY nombre` comparison on categories. -/
def tgLe (x y : TipoGasto) : Bool := chLe x.nombre.data y.nombre.data

/-- `Database.obtener_tipos_gasto`: all categories except the
case-insensitive `coche`/`coches` names, ordered by name ascending. -/
def obtener_tipos_gasto (s : DBState) : List TipoGasto :=
  List.insertionSort (fun x y => tgLe x y = true)
    (s.tipos.filter fun t => !(excludedNombre t.nombre))

/-- One row of the `obtener_resumen_por_tipo` result:
`tg.nombre AS tipo, tg.color, COUNT(f.id) AS cantidad, SUM(f.valor) AS total`
(`total` is `NULL` exactly when the group has no joined record rows). -/
structure ResumenRow where
  tipo : String
  color : Option String
  cantidad : Nat
  total : Option Int
deriving DecidableEq

/-- `ORDER BY total DESC` with SQLite's rule that `NULL` sorts last under
`DESC`. -/
def resumenLe (x y : ResumenRow) : Bool :=
  match x.total, y.total with
  | some a, some b => b ≤ a
  | some _, none => true
  | none, some _ => false
  | none, none => true

/-- `Database.obtener_resumen_por_tipo`: `tipos_gasto LEFT JOIN facturas`,
optional `WHERE f.fecha BETWEEN ? AND ?`, `GROUP BY tg.id`,
`ORDER BY total DESC`.  When the range filter is active, the `WHERE` clause
runs after the left join, so a category whose (possibly empty) set of
records has no date in range contributes no surviving join row and hence no
group; without the filter every category forms a group, with `COUNT(f.id)`
zero and `SUM(f.valor)` `NULL` for categories that have no records. -/
def obtener_resumen_por_tipo (fi ff : Option String) (s : DBState) : List ResumenRow :=
  let rows := s.tipos.filterMap fun t =>
    match activeBounds fi ff with
    | some (a, b) =>
      let fs := s.facturas.filter fun f => f.tipo_id == t.id && fechaInRange a b f.fecha
      if fs.isEmpty then none
      else some ⟨t.nombre, t.color, fs.length, some (fs.map (·.valor)).sum⟩
    | none =>
      let fs := s.facturas.filter fun f => f.tipo_id == t.id
      some ⟨t.nombre, t.color, fs.length, if fs.isEmpty then none else some (fs.map (·.valor)).sum⟩
  List.insertionSort (fun x y => resumenLe x y = true) rows

/-! ### Initialization -/

/-- The 14 seed categories of `_insert_default_tipos_gasto`. -/
def defaultTipos : List (String × String × String) :=
  [("Mercado", "Compras de supermercado", "#FF6B6B"),
   ("Transporte", "Transporte público/privado", "#4ECDC4"),
   ("Entretenimiento", "Cine, salidas, etc.", "#45B7D1"),
   ("Servicios", "Luz, agua, internet, etc.", "#96CEB4"),
   ("Salud", "Gastos médicos", "#FFEEAD"),
   ("Educación", "Cursos, libros, etc.", "#D4A373"),
   ("Gastos Básicos", "Gastos básicos del hogar", "#9B5DE5"),
   ("Ocio", "Actividades de ocio y diversión", "#FF9F1C"),
   ("Reparaciones", "Reparaciones y mantenimiento", "#2EC4B6"),
   ("Préstamo", "Pagos de préstamos", "#E71D36"),
   ("Ahorro", "Ahorros e inversiones", "#2EC4B6"),
   ("Predial", "Impuesto predial", "#6A4C93"),
   ("Gastos fijos", "Gastos fijos mensuales", "#9B5DE5"),
   ("Otros", "Otros gastos", "#8B8C89")]

/-- One `INSERT OR IGNORE INTO tipos_gasto (nombre, descripcion, color)`:
the insert is dropped exactly when the `UNIQUE` constraint on `nombre`
(BINARY equality) already holds a row with that name. -/
def insertTipoIfAbsent (s : DBState) (e : String × String × String) : DBState :=
  match findTipoByNombre s.tipos e.1 with
  | some _ => s
  | none =>
    { s with
      tipos := s.tipos ++ [⟨s.nextTipoId, e.1, some e.2.1, some e.2.2⟩]
      nextTipoId := s.nextTipoId + 1 }

/-- `Database._create_tables` acting on the schema-level state: the
`CREATE TABLE IF NOT EXISTS` / `CREATE INDEX IF NOT EXISTS` statements leave
existing data untouched, and the seed loop inserts each default category
if absent by name. -/
def initializeDB (s : DBState) : DBState :=
  defaultTipos.foldl insertTipoIfAbsent s

/-! ### Legacy importer -/

/-- One entry of the legacy JSON array.  `tipo` and `valor` are accessed
unconditionally by the importer; `fecha` is guarded by a
`(ValueError, KeyError)` handler, so a missing date is tolerated, and
`descripcion` is read with `.get('descripcion', '')`. -/
structure LegacyEntry where
  fecha : Option String
  tipo : String
  descripcion : Option String
  valor : Int
deriving DecidableEq

/-- Faults of the import source file as a whole. -/
inductive ImportError
  | fileReadFault
deriving DecidableEq

/-- The per-entry body of the import loop in `migrar_desde_json`:
resolve-or-create the category, normalize the date (missing or unparseable
date falls back to today), insert the record. -/
def migrarEntry (todayISO : String) (s : DBState) (e : LegacyEntry) : DBState :=
  let r := resolveOrCreateTipo s e.tipo
  let fechaDb :=
    match e.fecha with
    | some fs => normFecha todayISO fs
    | none => todayISO
  { r.2 with
    facturas := r.2.facturas ++ [⟨r.2.nextFacturaId, fechaDb, r.1, e.descripcion.getD "", e.valor⟩]
    nextFacturaId := r.2.nextFacturaId + 1 }

/-- `Database.migrar_desde_json`.  The source file is opened and parsed
before any database work: `contents = none` models `open`/`json.load`
raising, which propagates out of the `except ... raise` handler with the
store untouched.  On a readable file the loop processes every entry and the
entry count is returned after a single commit. -/
def migrar_desde_json (todayISO : String) (contents : Option (List LegacyEntry))
    (s : DBState) : Except ImportError (Nat × DBState) :=
  match contents with
  | none => Except.error ImportError.fileReadFault
  | some entries => Except.ok (entries.length, entries.foldl (migrarEntry todayISO) s)

/-! ### Well-formedness

Invariants the schema enforces on every reachable store: `AUTOINCREMENT`
counters exceed every existing rowid, primary keys and the `UNIQUE` name
column hold no duplicates, and every record's `tipo_id` resolves. -/

/-- Referential integrity of `facturas.tipo_id`. -/
def refIntact (s : DBState) : Prop :=
  ∀ f ∈ s.facturas, ∃ t ∈ s.tipos, t.id = f.tipo_id

/-- Schema-level well-formedness of a database state. -/
def wfState (s : DBState) : Prop :=
  (∀ t ∈ s.tipos, t.id < s.nextTipoId) ∧
  (∀ f ∈ s.facturas, f.id < s.nextFacturaId) ∧
  (s.tipos.map (·.id)).Nodup ∧
  (s.tipos.map (·.nombre)).Nodup ∧
  (s.facturas.map (·.id)).Nodup ∧
  refIntact s

instance : DecidablePred refIntact := fun s => by
  unfold refIntact; infer_instance

instance : DecidablePred wfState := fun s => by
  unfold wfState; exact instDecidableAnd

/-! ### Order lemmas for the three `ORDER BY` comparisons -/

theorem chLe_total : ∀ as bs : List Char, chLe as bs = true ∨ chLe bs as = true
  | [], _ => Or.inl rfl
  | _ :: _, [] => Or.inr rfl
  | a :: as, b :: bs => by
    rcases Nat.lt_trichotomy a.toNat b.toNat with h | h | h
    · left; simp [chLe, h]
    · have h1 : ¬ a.toNat < b.toNat := by omega
      have h2 : ¬ b.toNat < a.toNat := by omega
      rcases chLe_total as bs with ih | ih
      · left; simp [chLe, h1, h2, ih]
      · right; simp [chLe, h1, h2, ih]
    · right; simp [chLe, h]

theorem chLe_trans : ∀ as bs cs : List Char,
    chLe as bs = true → chLe bs cs = true → chLe as cs = true
  | [], _, _ => fun _ _ => rfl
  | _ :: _, [], _ => by simp [chLe]
  | _ :: _, _ :: _, [] => by simp [chLe]
  | a :: as, b :: bs, c :: cs => by
    simp only [chLe]
    intro h1 h2
    by_cases hab : a.toNat < b.toNat
    · by_cases hbc : b.toNat < c.toNat
      · simp [show a.toNat < c.toNat by omega]
      · by_cases hcb : c.toNat < b.toNat
        · rw [if_neg hbc, if_pos hcb] at h2; simp at h2
        · simp [show a.toNat < c.toNat by omega]
    · by_cases hba : b.toNat < a.toNat
      · rw [if_neg hab, if_pos hba] at h1; simp at h1
      · by_cases hbc : b.toNat < c.toNat
        · simp [show a.toNat < c.toNat by omega]
        · by_cases hcb : c.toNat < b.toNat
          · rw [if_neg hbc, if_pos hcb] at h2; simp at h2
          · rw [if_neg hab, if_neg hba] at h1
            rw [if_neg hbc, if_neg hcb] at h2
            rw [if_neg (show ¬ a.toNat < c.toNat by omega),
                if_neg (show ¬ c.toNat < a.toNat by omega)]
            exact chLe_trans as bs cs h1 h2

theorem tgLe_total (x y : TipoGasto) : tgLe x y = true ∨ tgLe y x = true :=
  chLe_total x.nombre.data y.nombre.data

theorem tgLe_trans (x y z : TipoGasto) :
    tgLe x y = true → tgLe y z = true → tgLe x z = true :=
  chLe_trans x.nombre.data y.nombre.data z.nombre.data

theorem fvDescLe_total (x y : FacturaView) : fvDescLe x y = true ∨ fvDescLe y x = true :=
  (chLe_total y.fecha.data x.fecha.data).symm.symm

theorem fvDescLe_trans (x y z : FacturaView) :
    fvDescLe x y = true → fvDescLe y z = true → fvDescLe x z = true :=
  fun h1 h2 => chLe_trans z.fecha.data y.fecha.data x.fecha.data h2 h1

theorem resumenLe_total (x y : ResumenRow) : resumenLe x y = true ∨ resumenLe y x = true := by
  unfold resumenLe
  rcases x.total with _ | a <;> rcases y.total with _ | b <;> simp
  exact Int.le_total b a

theorem resumenLe_trans (x y z : ResumenRow) :
    resumenLe x y = true → resumenLe y z = true → resumenLe x z = true := by
  unfold resumenLe
  rcases x.total with _ | a <;> rcases y.total with _ | b <;> rcases z.total with _ | c <;> simp
  omega

/-! ### Basic lemmas about the shared write-path helpers -/

theorem resolveOrCreateTipo_facturas (s : DBState) (n : String) :
    (resolveOrCreateTipo s n).2.facturas = s.facturas := by
  unfold resolveOrCreateTipo
  cases findTipoByNombre s.tipos n <;> rfl

theorem resolveOrCreateTipo_nextFacturaId (s : DBState) (n : String) :
    (resolveOrCreateTipo s n).2.nextFacturaId = s.nextFacturaId := by
  unfold resolveOrCreateTipo
  cases findTipoByNombre s.tipos n <;> rfl

theorem resolveOrCreateTipo_tipos (s : DBState) (n : String) :
    ∃ r, (resolveOrCreateTipo s n).2.tipos = s.tipos ++ r := by
  unfold resolveOrCreateTipo
  cases findTipoByNombre s.tipos n with
  | none => exact ⟨_, rfl⟩
  | some t => exact ⟨[], by simp⟩

theorem resolveOrCreateTipo_found (s : DBState) (n : String) (t : TipoGasto)
    (h : findTipoByNombre s.tipos n = some t) :
    resolveOrCreateTipo s n = (t.id, s) := by
  unfold resolveOrCreateTipo
  rw [h]

theorem resolveOrCreateTipo_not_found (s : DBState) (n : String)
    (h : findTipoByNombre s.tipos n = none) :
    resolveOrCreateTipo s n =
      (s.nextTipoId,
        { s with
          tipos := s.tipos ++ [⟨s.nextTipoId, n, none, none⟩]
          nextTipoId := s.nextTipoId + 1 }) := by
  unfold resolveOrCreateTipo
  rw [h]

theorem resolveOrCreateTipo_resolves (s : DBState) (n : String) :
    ∃ t ∈ (resolveOrCreateTipo s n).2.tipos, t.id = (resolveOrCreateTipo s n).1 := by
  unfold resolveOrCreateTipo
  cases h : findTipoByNombre s.tipos n with
  | none => exact ⟨⟨s.nextTipoId, n, none, none⟩, by simp⟩
  | some t => exact ⟨t, List.mem_of_find?_eq_some h, rfl⟩

theorem mem_of_findTipoByNombre (tipos : List TipoGasto) (n : String) (t : TipoGasto)
    (h : findTipoByNombre tipos n = some t) : t ∈ tipos ∧ t.nombre = n := by
  refine ⟨List.mem_of_find?_eq_some h, ?_⟩
  have := List.find?_some h
  simpa using this

theorem findTipoByNombre_isSome (tipos : List TipoGasto) (n : String)
    (t : TipoGasto) (ht : t ∈ tipos) (hn : t.nombre = n) :
    ∃ t', findTipoByNombre tipos n = some t' := by
  have : (tipos.find? (·.nombre == n)).isSome = true := by
    rw [List.find?_isSome]
    exact ⟨t, ht, by simp [hn]⟩
  rcases Option.isSome_iff_exists.mp this with ⟨t', h⟩
  exact ⟨t', h⟩

theorem findTipoById_append (tipos extra : List TipoGasto) (tid : Nat) (t : TipoGasto)
    (h : findTipoById tipos tid = some t) :
    findTipoById (tipos ++ extra) tid = some t := by
  unfold findTipoById at h ⊢
  rw [List.find?_append, h]
  rfl

theorem refIntact_findTipoById (s : DBState) (h : refIntact s) (f : Factura)
    (hf : f ∈ s.facturas) : ∃ t, findTipoById s.tipos f.tipo_id = some t := by
  rcases h f hf with ⟨t, ht, hid⟩
  have : (s.tipos.find? (·.id == f.tipo_id)).isSome = true := by
    rw [List.find?_isSome]
    exact ⟨t, ht, by simp [hid]⟩
  exact Option.isSome_iff_exists.mp this

/-- If two states hold the same records and every record's category resolves
identically, the `obtener_facturas` join produces the same rows. -/
theorem joinFacturas_congr (s s' : DBState) (hf : s'.facturas = s.facturas)
    (ht : ∀ f ∈ s.facturas, findTipoById s'.tipos f.tipo_id = findTipoById s.tipos f.tipo_id) :
    joinFacturas s' = joinFacturas s := by
  unfold joinFacturas
  rw [hf]
  exact List.filterMap_congr fun f hf' => by rw [ht f hf']

theorem refIntact_of_tipos_grow (s s' : DBState) (hf : s'.facturas = s.facturas)
    (ht : ∃ r, s'.tipos = s.tipos ++ r) (h : refIntact s) : refIntact s' := by
  rcases ht with ⟨r, hr⟩
  intro f hf'
  rw [hf] at hf'
  rcases h f hf' with ⟨t, htm, hid⟩
  exact ⟨t, by rw [hr]; exact List.mem_append_left _ htm, hid⟩

/-! ### Claim C1 -/

/-- Claim C1 as stated is false: with the underlying store faulting, both
`actualizar_factura` and `eliminar_factura` return the boolean `False`
(wrapped in a normal result) instead of propagating a `StorageWriteError`,
here shown at a concrete call. -/
theorem C1_counterexample :
    actualizar_factura_run true "2024-01-01" emptyDB 1 "15/01/2024" "Mercado" "d" 5
      = Except.ok (false, emptyDB) ∧
    actualizar_factura_run true "2024-01-01" emptyDB 1 "15/01/2024" "Mercado" "d" 5
      ≠ Except.error StorageWriteError.writeFault ∧
    eliminar_factura_run true emptyDB 1 = Except.ok (false, emptyDB) ∧
    eliminar_factura_run true emptyDB 1 ≠ Except.error StorageWriteError.writeFault :=
  ⟨rfl, fun h => Except.noConfusion h, rfl, fun h => Except.noConfusion h⟩

/-- Claim C1, amended: when the underlying store fails during
`actualizar_factura` or `eliminar_factura`, the `except Exception` handler
swallows the fault and the operation returns the boolean result `False`
over the rolled-back state; no `StorageWriteError` reaches the caller. -/
theorem C1_fault_swallowed (todayISO : String) (s : DBState) (facturaId : Nat)
    (fecha tipo descripcion : String) (valor : Int) :
    actualizar_factura_run true todayISO s facturaId fecha tipo descripcion valor
      = Except.ok (false, s) ∧
    eliminar_factura_run true s facturaId = Except.ok (false, s) :=
  ⟨rfl, rfl⟩

/-! ### Claim C3 -/

/-- Claim C3 (confirmed): `agregar_factura` always inserts exactly one
record whatever the date string; a date that parses in `DD/MM/YYYY` form is
stored in ISO form, an unparseable one is replaced by the current date; and
the outcome of `actualizar_factura` never depends on the date string, so no
write is rejected because of a malformed date. -/
theorem C3_date_substitution (todayISO fecha tipo descripcion : String) (valor : Int)
    (s : DBState) :
    ((agregar_factura todayISO s fecha tipo descripcion valor).2.facturas.length
      = s.facturas.length + 1) ∧
    (∀ facturaId fecha',
      (actualizar_factura todayISO s facturaId fecha tipo descripcion valor).1
        = (actualizar_factura todayISO s facturaId fecha' tipo descripcion valor).1) ∧
    (parseDMY fecha = none →
      ∃ f, (agregar_factura todayISO s fecha tipo descripcion valor).2.facturas
        = s.facturas ++ [f] ∧ f.fecha = todayISO) ∧
    (∀ d m y, parseDMY fecha = some (d, m, y) →
      ∃ f, (agregar_factura todayISO s fecha tipo descripcion valor).2.facturas
        = s.facturas ++ [f] ∧ f.fecha = fmtISO d m y) := by
  have hfac := resolveOrCreateTipo_facturas s tipo
  refine ⟨by simp [agregar_factura, hfac], fun _ _ => rfl, ?_, ?_⟩
  · intro hp
    refine ⟨⟨(resolveOrCreateTipo s tipo).2.nextFacturaId, normFecha todayISO fecha,
      (resolveOrCreateTipo s tipo).1, descripcion, valor⟩, ?_, ?_⟩
    · simp [agregar_factura, hfac]
    · simp [normFecha, hp]
  · intro d m y hp
    refine ⟨⟨(resolveOrCreateTipo s tipo).2.nextFacturaId, normFecha todayISO fecha,
      (resolveOrCreateTipo s tipo).1, descripcion, valor⟩, ?_, ?_⟩
    · simp [agregar_factura, hfac]
    · simp [normFecha, hp]

/-- Witness for C3: a record is added both with the unparseable date
`"99/99/2024"` (stored date becomes the current date) and with the valid
date `"15/01/2024"` (stored date becomes `"2024-01-15"`). -/
theorem C3_witness :
    (parseDMY "99/99/2024" = none ∧
      ∃ f, (agregar_factura "2025-06-01" emptyDB "99/99/2024" "Test" "d" 7).2.facturas
        = emptyDB.facturas ++ [f] ∧ f.fecha = "2025-06-01") ∧
    (parseDMY "15/01/2024" = some (15, 1, 2024) ∧
      ∃ f, (agregar_factura "2025-06-01" emptyDB "15/01/2024" "Test" "d" 7).2.facturas
        = emptyDB.facturas ++ [f] ∧ f.fecha = fmtISO 15 1 2024) :=
  ⟨⟨rfl, (C3_date_substitution "2025-06-01" "99/99/2024" "Test" "d" 7 emptyDB).2.2.1 rfl⟩,
   ⟨rfl, (C3_date_substitution "2025-06-01" "15/01/2024" "Test" "d" 7 emptyDB).2.2.2 15 1 2024 rfl⟩⟩

/-! ### Claim C4 -/

/-- Claim C4 (confirmed): `obtener_tipos_gasto` returns exactly the stored
categories whose name is not case-insensitively `coche`/`coches`, ordered by
name ascending; a stored excluded category is still found by the exact-name
resolution step of `agregar_factura`, which therefore creates no new
category for it. -/
theorem C4_exclusion_filter (s : DBState) (t : TipoGasto)
    (ht : t ∈ s.tipos) (hex : excludedNombre t.nombre = true) :
    t ∉ obtener_tipos_gasto s ∧
    (∀ t' ∈ obtener_tipos_gasto s, excludedNombre t'.nombre = false) ∧
    (∀ t', t' ∈ obtener_tipos_gasto s ↔ t' ∈ s.tipos ∧ excludedNombre t'.nombre = false) ∧
    List.Sorted (fun x y => tgLe x y = true) (obtener_tipos_gasto s) ∧
    (∃ t', findTipoByNombre s.tipos t.nombre = some t') ∧
    (∀ todayISO fecha descripcion : String, ∀ valor : Int,
      (agregar_factura todayISO s fecha t.nombre descripcion valor).2.tipos = s.tipos) := by
  have hmem : ∀ t', t' ∈ obtener_tipos_gasto s ↔
      t' ∈ s.tipos ∧ excludedNombre t'.nombre = false := by
    intro t'
    unfold obtener_tipos_gasto
    rw [List.mem_insertionSort, List.mem_filter]
    simp
  refine ⟨?_, ?_, hmem, ?_, ?_, ?_⟩
  · intro hc
    have := (hmem t).mp hc
    rw [hex] at this
    exact absurd this.2 (by simp)
  · exact fun t' h => ((hmem t').mp h).2
  · exact @List.sorted_insertionSort _ _ _
      ⟨fun a b => tgLe_total a b⟩ ⟨fun a b c => tgLe_trans a b c⟩ _
  · exact findTipoByNombre_isSome s.tipos t.nombre t ht rfl
  · intro todayISO fecha descripcion valor
    rcases findTipoByNombre_isSome s.tipos t.nombre t ht rfl with ⟨t', hfind⟩
    simp [agregar_factura, resolveOrCreateTipo_found s t.nombre t' hfind]

/-- Witness for C4: a state holding a directly inserted `"Coches"` category
next to `"Mercado"`. -/
theorem C4_witness :
    (TipoGasto.mk 2 "Coches" none none)
        ∈ (DBState.mk [⟨1, "Mercado", none, none⟩, ⟨2, "Coches", none, none⟩] [] 3 1).tipos ∧
    excludedNombre "Coches" = true ∧
    (TipoGasto.mk 2 "Coches" none none)
        ∉ obtener_tipos_gasto ⟨[⟨1, "Mercado", none, none⟩, ⟨2, "Coches", none, none⟩], [], 3, 1⟩ :=
  ⟨by decide, by decide,
    (C4_exclusion_filter ⟨[⟨1, "Mercado", none, none⟩, ⟨2, "Coches", none, none⟩], [], 3, 1⟩
      ⟨2, "Coches", none, none⟩ (by decide) (by decide)).1⟩

/-! ### Claim C6 -/

/-- Appending one record whose `tipo_id` resolves preserves referential
integrity when the categories only grow. -/
theorem refIntact_agregar (todayISO fecha tipo descripcion : String) (valor : Int)
    (s : DBState) (h : refIntact s) :
    refIntact (agregar_factura todayISO s fecha tipo descripcion valor).2 := by
  intro f hf
  have hfac := resolveOrCreateTipo_facturas s tipo
  simp only [agregar_factura, List.mem_append, hfac] at hf
  rcases hf with hf | hf
  · rcases resolveOrCreateTipo_tipos s tipo with ⟨r, hr⟩
    rcases h f hf with ⟨t, htm, hid⟩
    exact ⟨t, by simp [agregar_factura, hr, List.mem_append_left _ htm], hid⟩
  · rcases resolveOrCreateTipo_resolves s tipo with ⟨t, htm, hid⟩
    simp only [List.mem_singleton] at hf
    subst hf
    exact ⟨t, by simpa [agregar_factura] using htm, hid⟩

theorem refIntact_actualizar (todayISO fecha tipo descripcion : String) (valor : Int)
    (facturaId : Nat) (s : DBState) (h : refIntact s) :
    refIntact (actualizar_factura todayISO s facturaId fecha tipo descripcion valor).2 := by
  intro f hf
  have hfac := resolveOrCreateTipo_facturas s tipo
  simp only [actualizar_factura, List.mem_map, hfac] at hf
  rcases hf with ⟨g, hg, hgf⟩
  by_cases hid : g.id == facturaId
  · rw [if_pos hid] at hgf
    rcases resolveOrCreateTipo_resolves s tipo with ⟨t, htm, htid⟩
    subst hgf
    exact ⟨t, by simpa [actualizar_factura] using htm, htid⟩
  · rw [if_neg hid] at hgf
    subst hgf
    rcases h g hg with ⟨t, htm, htid⟩
    rcases resolveOrCreateTipo_tipos s tipo with ⟨r, hr⟩
    exact ⟨t, by simp [actualizar_factura, hr, List.mem_append_left _ htm], htid⟩

theorem refIntact_eliminar (facturaId : Nat) (s : DBState) (h : refIntact s) :
    refIntact (eliminar_factura s facturaId).2 := by
  intro f hf
  simp only [eliminar_factura, List.mem_filter] at hf
  exact h f hf.1

theorem refIntact_migrarEntry (todayISO : String) (e : LegacyEntry)
    (s : DBState) (h : refIntact s) : refIntact (migrarEntry todayISO s e) := by
  intro f hf
  have hfac := resolveOrCreateTipo_facturas s e.tipo
  simp only [migrarEntry, List.mem_append, hfac] at hf
  rcases hf with hf | hf
  · rcases resolveOrCreateTipo_tipos s e.tipo with ⟨r, hr⟩
    rcases h f hf with ⟨t, htm, hid⟩
    exact ⟨t, by simp [migrarEntry, hr, List.mem_append_left _ htm], hid⟩
  · rcases resolveOrCreateTipo_resolves s e.tipo with ⟨t, htm, hid⟩
    simp only [List.mem_singleton] at hf
    subst hf
    exact ⟨t, by simpa [migrarEntry] using htm, hid⟩

theorem migrarEntry_tipos_grow (todayISO : String) (e : LegacyEntry) (s : DBState) :
    ∃ r, (migrarEntry todayISO s e).tipos = s.tipos ++ r := by
  rcases resolveOrCreateTipo_tipos s e.tipo with ⟨r, hr⟩
  exact ⟨r, by simp [migrarEntry, hr]⟩

theorem migrar_fold_refIntact (todayISO : String) :
    ∀ (entries : List LegacyEntry) (s : DBState), refIntact s →
      refIntact (entries.foldl (migrarEntry todayISO) s) ∧
      ∃ r, (entries.foldl (migrarEntry todayISO) s).tipos = s.tipos ++ r
  | [], s, h => ⟨h, [], by simp⟩
  | e :: es, s, h => by
    have h1 := refIntact_migrarEntry todayISO e s h
    rcases migrarEntry_tipos_grow todayISO e s with ⟨r1, hr1⟩
    rcases migrar_fold_refIntact todayISO es (migrarEntry todayISO s e) h1 with ⟨h2, r2, hr2⟩
    exact ⟨h2, r1 ++ r2, by simp [List.foldl_cons, hr2, hr1]⟩

/-- Claim C6 (confirmed): starting from a state whose records all reference
an existing category, every public write path — `agregar_factura`,
`actualizar_factura`, `eliminar_factura`, and the legacy importer —
preserves that invariant; category resolution never fails (it creates the
category instead), and no operation removes a category (the category table
only ever grows). -/
theorem C6_category_invariant (todayISO fecha tipo descripcion : String) (valor : Int)
    (facturaId : Nat) (entries : List LegacyEntry) (s : DBState) (h : refIntact s) :
    refIntact (agregar_factura todayISO s fecha tipo descripcion valor).2 ∧
    (∃ r, (agregar_factura todayISO s fecha tipo descripcion valor).2.tipos = s.tipos ++ r) ∧
    refIntact (actualizar_factura todayISO s facturaId fecha tipo descripcion valor).2 ∧
    (∃ r, (actualizar_factura todayISO s facturaId fecha tipo descripcion valor).2.tipos
      = s.tipos ++ r) ∧
    refIntact (eliminar_factura s facturaId).2 ∧
    (eliminar_factura s facturaId).2.tipos = s.tipos ∧
    (∀ n s', migrar_desde_json todayISO (some entries) s = Except.ok (n, s') →
      refIntact s' ∧ ∃ r, s'.tipos = s.tipos ++ r) := by
  refine ⟨refIntact_agregar todayISO fecha tipo descripcion valor s h, ?_,
    refIntact_actualizar todayISO fecha tipo descripcion valor facturaId s h, ?_,
    refIntact_eliminar facturaId s h, rfl, ?_⟩
  · rcases resolveOrCreateTipo_tipos s tipo with ⟨r, hr⟩
    exact ⟨r, by simp [agregar_factura, hr]⟩
  · rcases resolveOrCreateTipo_tipos s tipo with ⟨r, hr⟩
    exact ⟨r, by simp [actualizar_factura, hr]⟩
  · intro n s' hmig
    simp only [migrar_desde_json, Except.ok.injEq, Prod.mk.injEq] at hmig
    rcases hmig with ⟨-, hs'⟩
    rcases migrar_fold_refIntact todayISO entries s h with ⟨h1, r, hr⟩
    exact hs' ▸ ⟨h1, r, hr⟩

/-- Witness for C6: the invariant is preserved from a concrete well-formed
state through all four write paths. -/
theorem C6_witness :
    refIntact (DBState.mk [⟨1, "Mercado", none, none⟩] [⟨1, "2024-01-15", 1, "d", 5⟩] 2 2) ∧
    refIntact (agregar_factura "2025-06-01"
      ⟨[⟨1, "Mercado", none, none⟩], [⟨1, "2024-01-15", 1, "d", 5⟩], 2, 2⟩
      "16/01/2024" "Nueva" "x" 9).2 :=
  ⟨by decide,
    (C6_category_invariant "2025-06-01" "16/01/2024" "Nueva" "x" 9 1 []
      ⟨[⟨1, "Mercado", none, none⟩], [⟨1, "2024-01-15", 1, "d", 5⟩], 2, 2⟩ (by decide)).1⟩

/-! ### Claim C7 -/

theorem map_noop {α : Type} (l : List α) (g : α → α) (h : ∀ x ∈ l, g x = x) :
    l.map g = l := by
  induction l with
  | nil => rfl
  | cons x xs ih =>
    simp only [List.map_cons, h x (by simp)]
    rw [ih fun y hy => h y (List.mem_cons_of_mem x hy)]

theorem filter_by_id_length_le_one (l : List Factura) (fid : Nat)
    (h : (l.map (·.id)).Nodup) : (l.filter (fun f => f.id == fid)).length ≤ 1 := by
  induction l with
  | nil => simp
  | cons f fs ih =>
    rw [List.map_cons, List.nodup_cons] at h
    by_cases hf : f.id == fid
    · have hnil : fs.filter (fun g => g.id == fid) = [] := by
        rw [List.filter_eq_nil_iff]
        intro g hg hgid
        apply h.1
        rw [List.mem_map]
        exact ⟨g, hg, by have := beq_iff_eq.mp hgid; have := beq_iff_eq.mp hf; omega⟩
      simp [List.filter_cons, hf, hnil]
    · simpa [List.filter_cons, hf] using ih h.2

theorem any_id_iff_filter_length_one (l : List Factura) (fid : Nat)
    (h : (l.map (·.id)).Nodup) :
    (l.any (fun f => f.id == fid) = true ↔ (l.filter (fun f => f.id == fid)).length = 1) := by
  constructor
  · intro ha
    rcases List.any_eq_true.mp ha with ⟨f, hf, hfid⟩
    have h1 : f ∈ l.filter (fun f => f.id == fid) := List.mem_filter.mpr ⟨hf, hfid⟩
    have h2 : 1 ≤ (l.filter (fun f => f.id == fid)).length :=
      List.length_pos.mpr (List.ne_nil_of_mem h1)
    have h3 := filter_by_id_length_le_one l fid h
    omega
  · intro hlen
    rcases List.exists_mem_of_length_pos (by omega :
        0 < (l.filter (fun f => f.id == fid)).length) with ⟨f, hf⟩
    have := List.mem_filter.mp hf
    exact List.any_eq_true.mpr ⟨f, this.1, this.2⟩

/-- Claim C7 (confirmed): `actualizar_factura` on an id that matches no
record returns `false` without raising, and `obtener_facturas` returns the
same output before and after the call for every choice of bounds; in
general, on a well-formed store the returned boolean is `true` exactly when
one record (the unique one with that id) was affected. -/
theorem C7_update_nonexistent (todayISO fecha tipo descripcion : String) (valor : Int)
    (facturaId : Nat) (s : DBState) (hwf : wfState s)
    (hno : ∀ f ∈ s.facturas, f.id ≠ facturaId) :
    (actualizar_factura todayISO s facturaId fecha tipo descripcion valor).1 = false ∧
    (∀ fi ff, obtener_facturas fi ff
        (actualizar_factura todayISO s facturaId fecha tipo descripcion valor).2
      = obtener_facturas fi ff s) ∧
    (∀ fid', (actualizar_factura todayISO s fid' fecha tipo descripcion valor).1 = true
      ↔ (s.facturas.filter (fun f => f.id == fid')).length = 1) := by
  have hfac := resolveOrCreateTipo_facturas s tipo
  have hArf : ∀ fid', (actualizar_factura todayISO s fid' fecha tipo descripcion valor).1
      = s.facturas.any (fun f => f.id == fid') := by
    intro fid'
    simp only [actualizar_factura, hfac]
  refine ⟨?_, ?_, ?_⟩
  · rw [hArf, List.any_eq_false]
    intro f hf
    simpa using hno f hf
  · intro fi ff
    set s' := (actualizar_factura todayISO s facturaId fecha tipo descripcion valor).2 with hs'
    have hmap : s'.facturas = s.facturas := by
      rw [hs']
      simp only [actualizar_factura, hfac]
      exact map_noop _ _ fun f hf => by simp [hno f hf]
    have htip : ∀ f ∈ s.facturas,
        findTipoById s'.tipos f.tipo_id = findTipoById s.tipos f.tipo_id := by
      intro f hf
      rcases refIntact_findTipoById s hwf.2.2.2.2.2 f hf with ⟨t, hfind⟩
      rcases resolveOrCreateTipo_tipos s tipo with ⟨r, hr⟩
      have : s'.tipos = s.tipos ++ r := by
        rw [hs']; simpa [actualizar_factura] using hr
      rw [this, hfind, findTipoById_append s.tipos r f.tipo_id t hfind]
    have hjoin : joinFacturas s' = joinFacturas s := joinFacturas_congr s s' hmap htip
    unfold obtener_facturas obtener_facturas_rows
    rw [hjoin]
  · intro fid'
    rw [hArf]
    exact any_id_iff_filter_length_one s.facturas fid' hwf.2.2.2.2.1

/-- Witness for C7: updating id 99 in a single-record store returns `false`
and leaves the listing unchanged. -/
theorem C7_witness :
    wfState (DBState.mk [⟨1, "Mercado", none, none⟩] [⟨1, "2024-01-15", 1, "d", 5⟩] 2 2) ∧
    (∀ f ∈ (DBState.mk [⟨1, "Mercado", none, none⟩] [⟨1, "2024-01-15", 1, "d", 5⟩] 2 2).facturas,
      f.id ≠ 99) ∧
    (actualizar_factura "2025-06-01"
      ⟨[⟨1, "Mercado", none, none⟩], [⟨1, "2024-01-15", 1, "d", 5⟩], 2, 2⟩
      99 "16/01/2024" "Nueva" "x" 9).1 = false :=
  ⟨by decide, by decide,
    (C7_update_nonexistent "2025-06-01" "16/01/2024" "Nueva" "x" 9 99
      ⟨[⟨1, "Mercado", none, none⟩], [⟨1, "2024-01-15", 1, "d", 5⟩], 2, 2⟩
      (by decide) (by decide)).1⟩

/-! ### Claim C10 -/

/-- Claim C10 (confirmed): when `actualizar_factura` targets an id matching
no record and a category name not in storage, it still inserts a new bare
category with that name before discovering that no row matches: the result
is `false`, the records table is untouched, but the categories table has
gained one row. -/
theorem C10_notfound_creates_category (todayISO fecha tipo descripcion : String)
    (valor : Int) (facturaId : Nat) (s : DBState)
    (hno : ∀ f ∈ s.facturas, f.id ≠ facturaId)
    (hnt : findTipoByNombre s.tipos tipo = none) :
    (actualizar_factura todayISO s facturaId fecha tipo descripcion valor).1 = false ∧
    (actualizar_factura todayISO s facturaId fecha tipo descripcion valor).2.tipos
      = s.tipos ++ [⟨s.nextTipoId, tipo, none, none⟩] ∧
    (actualizar_factura todayISO s facturaId fecha tipo descripcion valor).2.facturas
      = s.facturas := by
  have hfac := resolveOrCreateTipo_facturas s tipo
  refine ⟨?_, ?_, ?_⟩
  · simp only [actualizar_factura, hfac]
    rw [List.any_eq_false]
    intro f hf
    simpa using hno f hf
  · simp [actualizar_factura, resolveOrCreateTipo_not_found s tipo hnt]
  · simp only [actualizar_factura, hfac]
    exact map_noop _ _ fun f hf => by simp [hno f hf]

/-- Witness for C10: updating absent id 99 with unseen category name
`"Nueva"` returns `false` yet appends the category. -/
theorem C10_witness :
    (∀ f ∈ (DBState.mk [⟨1, "Mercado", none, none⟩] [⟨1, "2024-01-15", 1, "d", 5⟩] 2 2).facturas,
      f.id ≠ 99) ∧
    findTipoByNombre [⟨1, "Mercado", none, none⟩] "Nueva" = none ∧
    (actualizar_factura "2025-06-01"
      ⟨[⟨1, "Mercado", none, none⟩], [⟨1, "2024-01-15", 1, "d", 5⟩], 2, 2⟩
      99 "16/01/2024" "Nueva" "x" 9).2.tipos
      = [⟨1, "Mercado", none, none⟩] ++ [⟨2, "Nueva", none, none⟩] :=
  ⟨by decide, by decide,
    (C10_notfound_creates_category "2025-06-01" "16/01/2024" "Nueva" "x" 9 99
      ⟨[⟨1, "Mercado", none, none⟩], [⟨1, "2024-01-15", 1, "d", 5⟩], 2, 2⟩
      (by decide) (by decide)).2.1⟩

/-! ### Claim C8 -/

theorem insertTipoIfAbsent_of_found (s : DBState) (e : String × String × String)
    (h : ∃ t, findTipoByNombre s.tipos e.1 = some t) : insertTipoIfAbsent s e = s := by
  rcases h with ⟨t, h⟩
  unfold insertTipoIfAbsent
  rw [h]

theorem insertTipoIfAbsent_preserves_found (s : DBState) (e : String × String × String)
    (n : String) (t : TipoGasto) (h : findTipoByNombre s.tipos n = some t) :
    findTipoByNombre (insertTipoIfAbsent s e).tipos n = some t := by
  unfold insertTipoIfAbsent
  cases h' : findTipoByNombre s.tipos e.1 with
  | some _ => exact h
  | none =>
    show findTipoByNombre (s.tipos ++ _) n = some t
    unfold findTipoByNombre at h ⊢
    rw [List.find?_append, h]
    rfl

theorem insertTipoIfAbsent_has (s : DBState) (e : String × String × String) :
    ∃ t, findTipoByNombre (insertTipoIfAbsent s e).tipos e.1 = some t := by
  cases h : findTipoByNombre s.tipos e.1 with
  | some t => exact ⟨t, insertTipoIfAbsent_preserves_found s e e.1 t h⟩
  | none =>
    refine ⟨⟨s.nextTipoId, e.1, some e.2.1, some e.2.2⟩, ?_⟩
    unfold insertTipoIfAbsent
    rw [h]
    show findTipoByNombre (s.tipos ++ _) e.1 = _
    unfold findTipoByNombre at h ⊢
    rw [List.find?_append, h]
    simp

theorem fold_insert_preserves_found (es : List (String × String × String)) :
    ∀ (s : DBState) (n : String) (t : TipoGasto),
      findTipoByNombre s.tipos n = some t →
      findTipoByNombre ((es.foldl insertTipoIfAbsent s)).tipos n = some t := by
  induction es with
  | nil => exact fun s n t h => h
  | cons e es ih =>
    intro s n t h
    exact ih (insertTipoIfAbsent s e) n t (insertTipoIfAbsent_preserves_found s e n t h)

theorem fold_insert_has (es : List (String × String × String)) :
    ∀ (s : DBState), ∀ e ∈ es,
      ∃ t, findTipoByNombre ((es.foldl insertTipoIfAbsent s)).tipos e.1 = some t := by
  induction es with
  | nil => intro s e he; cases he
  | cons e0 es ih =>
    intro s e he
    rcases List.mem_cons.mp he with he | he
    · subst he
      rcases insertTipoIfAbsent_has s e with ⟨t, ht⟩
      exact ⟨t, fold_insert_preserves_found es (insertTipoIfAbsent s e) e.1 t ht⟩
    · exact ih (insertTipoIfAbsent s e0) e he

theorem fold_insert_noop (es : List (String × String × String)) :
    ∀ (s : DBState), (∀ e ∈ es, ∃ t, findTipoByNombre s.tipos e.1 = some t) →
      es.foldl insertTipoIfAbsent s = s := by
  induction es with
  | nil => exact fun s _ => rfl
  | cons e es ih =>
    intro s h
    rw [List.foldl_cons, insertTipoIfAbsent_of_found s e (h e (by simp))]
    exact ih s fun e' he' => h e' (List.mem_cons_of_mem e he')

theorem fold_insert_facturas (es : List (String × String × String)) :
    ∀ s : DBState, ((es.foldl insertTipoIfAbsent s)).facturas = s.facturas := by
  induction es with
  | nil => exact fun _ => rfl
  | cons e es ih =>
    intro s
    rw [List.foldl_cons, ih]
    unfold insertTipoIfAbsent
    cases findTipoByNombre s.tipos e.1 <;> rfl

theorem insertTipoIfAbsent_of_none (s : DBState) (e : String × String × String)
    (h : findTipoByNombre s.tipos e.1 = none) :
    insertTipoIfAbsent s e =
      { s with
        tipos := s.tipos ++ [⟨s.nextTipoId, e.1, some e.2.1, some e.2.2⟩]
        nextTipoId := s.nextTipoId + 1 } := by
  unfold insertTipoIfAbsent
  rw [h]

theorem fold_insert_tipos_grow (es : List (String × String × String)) :
    ∀ s : DBState, ∃ r, ((es.foldl insertTipoIfAbsent s)).tipos = s.tipos ++ r := by
  induction es with
  | nil => exact fun s => ⟨[], by simp⟩
  | cons e es ih =>
    intro s
    rcases ih (insertTipoIfAbsent s e) with ⟨r2, hr2⟩
    rw [List.foldl_cons]
    cases h : findTipoByNombre s.tipos e.1 with
    | some t =>
      rw [insertTipoIfAbsent_of_found s e ⟨t, h⟩] at hr2 ⊢
      exact ⟨r2, hr2⟩
    | none =>
      rw [insertTipoIfAbsent_of_none s e h] at hr2 ⊢
      exact ⟨[⟨s.nextTipoId, e.1, some e.2.1, some e.2.2⟩] ++ r2, by rw [hr2]; simp⟩

theorem insertTipoIfAbsent_nombres_nodup (s : DBState) (e : String × String × String)
    (h : (s.tipos.map (·.nombre)).Nodup) :
    (((insertTipoIfAbsent s e).tipos.map (·.nombre))).Nodup := by
  unfold insertTipoIfAbsent
  cases h' : findTipoByNombre s.tipos e.1 with
  | some _ => exact h
  | none =>
    show ((s.tipos ++ _).map (·.nombre)).Nodup
    rw [List.map_append]
    simp only [List.map_cons, List.map_nil]
    rw [List.nodup_append]
    refine ⟨h, List.nodup_singleton _, ?_⟩
    intro nm hnm hnm'
    simp only [List.mem_singleton] at hnm'
    subst hnm'
    rcases List.mem_map.mp hnm with ⟨t, htm, htn⟩
    have := List.find?_eq_none.mp h' t htm
    simp [htn] at this

theorem fold_insert_nombres_nodup (es : List (String × String × String)) :
    ∀ s : DBState, (s.tipos.map (·.nombre)).Nodup →
      (((es.foldl insertTipoIfAbsent s)).tipos.map (·.nombre)).Nodup := by
  induction es with
  | nil => exact fun _ h => h
  | cons e es ih =>
    intro s h
    exact ih (insertTipoIfAbsent s e) (insertTipoIfAbsent_nombres_nodup s e h)

theorem filter_by_nombre_length_le_one (l : List TipoGasto) (nm : String)
    (h : (l.map (·.nombre)).Nodup) : (l.filter (fun t => t.nombre == nm)).length ≤ 1 := by
  induction l with
  | nil => simp
  | cons t ts ih =>
    rw [List.map_cons, List.nodup_cons] at h
    by_cases hn : t.nombre == nm
    · have hnil : ts.filter (fun g => g.nombre == nm) = [] := by
        rw [List.filter_eq_nil_iff]
        intro g hg hgn
        apply h.1
        rw [List.mem_map]
        refine ⟨g, hg, ?_⟩
        rw [beq_iff_eq.mp hgn, beq_iff_eq.mp hn]
      simp [List.filter_cons, hn, hnil]
    · simpa [List.filter_cons, hn] using ih h.2

/-- Claim C8 (confirmed): running initialization a second time is a no-op;
initialization never drops or alters a record, only appends to the category
table (existing categories are never overwritten), and on a well-formed
store each of the 14 seed names afterwards names exactly one category. -/
theorem C8_initialize_idempotent (s : DBState) (hwf : wfState s) :
    initializeDB (initializeDB s) = initializeDB s ∧
    (initializeDB s).facturas = s.facturas ∧
    (∃ r, (initializeDB s).tipos = s.tipos ++ r) ∧
    (∀ nm ∈ defaultTipos.map (fun e => e.1),
      ((initializeDB s).tipos.filter (fun t => t.nombre == nm)).length = 1) := by
  refine ⟨?_, fold_insert_facturas defaultTipos s, fold_insert_tipos_grow defaultTipos s, ?_⟩
  · exact fold_insert_noop defaultTipos (initializeDB s)
      fun e he => fold_insert_has defaultTipos s e he
  · intro nm hnm
    rcases List.mem_map.mp hnm with ⟨e, he, hen⟩
    rcases fold_insert_has defaultTipos s e he with ⟨t, ht⟩
    rcases mem_of_findTipoByNombre _ _ _ ht with ⟨htm, htn⟩
    have hle : ((initializeDB s).tipos.filter (fun t => t.nombre == nm)).length ≤ 1 :=
      filter_by_nombre_length_le_one _ nm
        (fold_insert_nombres_nodup defaultTipos s hwf.2.2.2.1)
    have hmem : t ∈ (initializeDB s).tipos.filter (fun t => t.nombre == nm) :=
      List.mem_filter.mpr ⟨htm, by rw [htn, hen]; simp⟩
    have hge : 1 ≤ ((initializeDB s).tipos.filter (fun t => t.nombre == nm)).length :=
      List.length_pos.mpr (List.ne_nil_of_mem hmem)
    omega

/-- Witness for C8: initializing an empty store is idempotent and seeds each
default category exactly once. -/
theorem C8_witness :
    wfState emptyDB ∧ initializeDB (initializeDB emptyDB) = initializeDB emptyDB :=
  ⟨by decide, (C8_initialize_idempotent emptyDB (by decide)).1⟩

/-! ### Claim C9 -/

theorem migrarEntry_facturas (todayISO : String) (s : DBState) (e : LegacyEntry) :
    (migrarEntry todayISO s e).facturas
      = s.facturas ++ [⟨s.nextFacturaId,
          match e.fecha with
          | some fs => normFecha todayISO fs
          | none => todayISO,
          (resolveOrCreateTipo s e.tipo).1, e.descripcion.getD "", e.valor⟩] := by
  simp [migrarEntry, resolveOrCreateTipo_facturas, resolveOrCreateTipo_nextFacturaId]

theorem migrar_fold_length (todayISO : String) :
    ∀ (entries : List LegacyEntry) (s : DBState),
      ((entries.foldl (migrarEntry todayISO) s)).facturas.length
        = s.facturas.length + entries.length := by
  intro entries
  induction entries with
  | nil => intro s; simp
  | cons e es ih =>
    intro s
    rw [List.foldl_cons, ih, migrarEntry_facturas]
    simp
    omega

/-- Claim C9 (confirmed): an unreadable or unparseable source file aborts
the whole import with a propagated fault and no database change (the file
is read before any store work begins); a readable file is imported in full,
every entry becoming one record even when its date is missing or
unparseable (the current date is substituted), and the returned count is
the number of entries processed. -/
theorem C9_import_whole_file (todayISO : String) (s : DBState)
    (entries : List LegacyEntry) (e : LegacyEntry) :
    (migrar_desde_json todayISO none s = Except.error ImportError.fileReadFault) ∧
    (∃ s', migrar_desde_json todayISO (some entries) s = Except.ok (entries.length, s') ∧
      s'.facturas.length = s.facturas.length + entries.length) ∧
    (∃ f, (migrarEntry todayISO s e).facturas = s.facturas ++ [f] ∧
      (e.fecha = none → f.fecha = todayISO) ∧
      (∀ fs, e.fecha = some fs → parseDMY fs = none → f.fecha = todayISO)) := by
  refine ⟨rfl, ⟨entries.foldl (migrarEntry todayISO) s, rfl,
    migrar_fold_length todayISO entries s⟩, ?_⟩
  refine ⟨_, migrarEntry_facturas todayISO s e, ?_, ?_⟩
  · intro h
    rw [h]
  · intro fs h hp
    rw [h]
    simp [normFecha, hp]

/-- Witness for C9: a two-entry legacy list, one entry with a bad date, is
imported in full with count 2. -/
theorem C9_witness :
    (∃ s', migrar_desde_json "2025-06-01"
        (some [⟨some "15/01/2024", "Mercado", some "a", 5⟩, ⟨some "oops", "Nueva", none, 7⟩])
        emptyDB
      = Except.ok (2, s') ∧ s'.facturas.length = emptyDB.facturas.length + 2) ∧
    ((⟨some "oops", "Nueva", none, 7⟩ : LegacyEntry).fecha = some "oops" ∧
      parseDMY "oops" = none) :=
  ⟨((C9_import_whole_file "2025-06-01" emptyDB
      [⟨some "15/01/2024", "Mercado", some "a", 5⟩, ⟨some "oops", "Nueva", none, 7⟩]
      ⟨some "oops", "Nueva", none, 7⟩).2.1), by exact ⟨rfl, rfl⟩⟩

/-! ### Claim C2 -/

theorem activeBounds_some (a b : String) (ha : a ≠ "") (hb : b ≠ "") :
    activeBounds (some a) (some b) = some (a, b) := by
  simp [activeBounds, ha, hb]

theorem length_filterMap_some {α β : Type} (g : α → β) (l : List α) :
    (l.filterMap (fun a => some (g a))).length = l.length := by
  rw [show (fun a => some (g a)) = some ∘ g from rfl, List.filterMap_eq_map, List.length_map]

theorem length_filterMap_eq_length_filter {α β : Type} (f : α → Option β) (l : List α) :
    (l.filterMap f).length = (l.filter (fun a => (f a).isSome)).length := by
  induction l with
  | nil => rfl
  | cons x xs ih => cases h : f x <;> simp [List.filterMap_cons, List.filter_cons, h, ih]

/-- Claim C2 as stated is false: with both bounds supplied, a category with
no record in the range gets no row at all (the range condition in the
`WHERE` clause discards the left join's null row), instead of appearing
with count 0 — here a store with one non-excluded category and no records
yields an empty summary. -/
theorem C2_counterexample :
    (DBState.mk [⟨1, "Mercado", none, none⟩] [] 2 1).tipos.length = 1 ∧
    excludedNombre "Mercado" = false ∧
    obtener_resumen_por_tipo (some "2024-01-01") (some "2024-12-31")
      ⟨[⟨1, "Mercado", none, none⟩], [], 2, 1⟩ = [] :=
  ⟨rfl, rfl, rfl⟩

/-- Claim C2, amended: with no date bounds, `obtener_resumen_por_tipo`
returns exactly one row per existing category (the `coche`/`coches` names
are not excluded here), and a category with no records appears with count 0
and an absent total; with both bounds supplied, exactly the categories
having at least one record in the inclusive range get a row — zero-record
categories are dropped. -/
theorem C2_summary_rows (s : DBState) (a b : String) (ha : a ≠ "") (hb : b ≠ "") :
    ((obtener_resumen_por_tipo none none s).length = s.tipos.length) ∧
    (∀ t ∈ s.tipos, (∀ f ∈ s.facturas, f.tipo_id ≠ t.id) →
      ResumenRow.mk t.nombre t.color 0 none ∈ obtener_resumen_por_tipo none none s) ∧
    ((obtener_resumen_por_tipo (some a) (some b) s).length
      = (s.tipos.filter fun t =>
          !(s.facturas.filter fun f =>
              f.tipo_id == t.id && fechaInRange a b f.fecha).isEmpty).length) := by
  have hab := activeBounds_some a b ha hb
  refine ⟨?_, ?_, ?_⟩
  · unfold obtener_resumen_por_tipo
    rw [List.length_insertionSort]
    exact length_filterMap_some _ s.tipos
  · intro t ht hno
    unfold obtener_resumen_por_tipo
    rw [List.mem_insertionSort, List.mem_filterMap]
    refine ⟨t, ht, ?_⟩
    have hnil : s.facturas.filter (fun f => f.tipo_id == t.id) = [] := by
      rw [List.filter_eq_nil_iff]
      intro f hf
      simpa using hno f hf
    simp [activeBounds, hnil]
  · unfold obtener_resumen_por_tipo
    rw [List.length_insertionSort, length_filterMap_eq_length_filter]
    apply congrArg List.length
    apply List.filter_congr
    intro t _
    rw [hab]
    by_cases h : (s.facturas.filter fun f =>
        f.tipo_id == t.id && fechaInRange a b f.fecha).isEmpty
    · simp [h]
    · simp [h]

/-- Witness for C2's amended statement at a concrete store: one category
with one dated record, bounds `2024-01-01`–`2024-12-31`. -/
theorem C2_witness :
    ("2024-01-01" : String) ≠ "" ∧ ("2024-12-31" : String) ≠ "" ∧
    (obtener_resumen_por_tipo none none
        (DBState.mk [⟨1, "Mercado", none, none⟩] [⟨1, "2024-01-15", 1, "d", 5⟩] 2 2)).length
      = (DBState.mk [⟨1, "Mercado", none, none⟩] [⟨1, "2024-01-15", 1, "d", 5⟩] 2 2).tipos.length :=
  ⟨by decide, by decide,
    (C2_summary_rows ⟨[⟨1, "Mercado", none, none⟩], [⟨1, "2024-01-15", 1, "d", 5⟩], 2, 2⟩
      "2024-01-01" "2024-12-31" (by decide) (by decide)).1⟩

/-! ### Claim C5 -/

theorem mem_joinFacturas_fecha (s : DBState) (v : FacturaView)
    (h : v ∈ joinFacturas s) : ∃ f ∈ s.facturas, v.fecha = f.fecha := by
  unfold joinFacturas at h
  rcases List.mem_filterMap.mp h with ⟨f, hf, hmap⟩
  rcases Option.map_eq_some'.mp hmap with ⟨t, -, hv⟩
  exact ⟨f, hf, by rw [← hv]⟩

/-- Claim C5 (confirmed): `obtener_facturas` filters by the inclusive date
range exactly when both bounds are supplied and nonempty, returns the full
joined set when either bound is omitted, sorts by stored (ISO) date
descending, and maps each stored date to `DD/MM/YYYY` display form. -/
theorem C5_list_records (a b : String) (s : DBState) (ha : a ≠ "") (hb : b ≠ "") :
    (∀ v, v ∈ obtener_facturas_rows (some a) (some b) s ↔
      v ∈ joinFacturas s ∧ fechaInRange a b v.fecha = true) ∧
    (∀ v, v ∈ obtener_facturas_rows none none s ↔ v ∈ joinFacturas s) ∧
    (∀ x, obtener_facturas (some x) none s = obtener_facturas none none s ∧
      obtener_facturas none (some x) s = obtener_facturas none none s) ∧
    (∀ fi ff, List.Sorted (fun x y => fvDescLe x y = true) (obtener_facturas_rows fi ff s)) ∧
    (∀ fi ff, obtener_facturas fi ff s
      = (obtener_facturas_rows fi ff s).map fun v => { v with fecha := displayFecha v.fecha }) ∧
    ((∀ f ∈ s.facturas, (parseISO f.fecha).isSome = true) →
      ∀ v ∈ obtener_facturas (some a) (some b) s, ∃ y m d, v.fecha = fmtDMY d m y) := by
  have hab := activeBounds_some a b ha hb
  refine ⟨?_, ?_, fun x => ⟨rfl, rfl⟩, ?_, fun _ _ => rfl, ?_⟩
  · intro v
    unfold obtener_facturas_rows
    rw [hab]
    rw [List.mem_insertionSort, List.mem_filter]
  · intro v
    rw [show obtener_facturas_rows none none s
        = List.insertionSort (fun x y => fvDescLe x y = true) (joinFacturas s) from rfl]
    exact List.mem_insertionSort _
  · intro fi ff
    exact @List.sorted_insertionSort _ _ _
      ⟨fvDescLe_total⟩ ⟨fun x y z => fvDescLe_trans x y z⟩ _
  · intro hiso v hv
    unfold obtener_facturas at hv
    rcases List.mem_map.mp hv with ⟨v0, hv0, hveq⟩
    have hv0j : v0 ∈ joinFacturas s := by
      have := (by
        unfold obtener_facturas_rows at hv0
        rw [hab] at hv0
        exact (List.mem_insertionSort _).mp hv0)
      exact (List.mem_filter.mp this).1
    rcases mem_joinFacturas_fecha s v0 hv0j with ⟨f, hf, hfe⟩
    rcases Option.isSome_iff_exists.mp (hiso f hf) with ⟨ymd, hymd⟩
    rcases ymd with ⟨y, m, d⟩
    refine ⟨y, m, d, ?_⟩
    rw [← hveq]
    show displayFecha v0.fecha = fmtDMY d m y
    rw [hfe]
    unfold displayFecha
    rw [hymd]

/-- Witness for C5 at a concrete store: one in-range record under bounds
`2024-01-01`–`2024-12-31`. -/
theorem C5_witness :
    ("2024-01-01" : String) ≠ "" ∧ ("2024-12-31" : String) ≠ "" ∧
    (FacturaView.mk 1 "2024-01-15" "Mercado" "d" 5 none
        ∈ obtener_facturas_rows (some "2024-01-01") (some "2024-12-31")
          (DBState.mk [⟨1, "Mercado", none, none⟩] [⟨1, "2024-01-15", 1, "d", 5⟩] 2 2) ↔
      FacturaView.mk 1 "2024-01-15" "Mercado" "d" 5 none
          ∈ joinFacturas ⟨[⟨1, "Mercado", none, none⟩], [⟨1, "2024-01-15", 1, "d", 5⟩], 2, 2⟩ ∧
        fechaInRange "2024-01-01" "2024-12-31" "2024-01-15" = true) :=
  ⟨by decide, by decide,
    (C5_list_records "2024-01-01" "2024-12-31"
      ⟨[⟨1, "Mercado", none, none⟩], [⟨1, "2024-01-15", 1, "d", 5⟩], 2, 2⟩
      (by decide) (by decide)).1 ⟨1, "2024-01-15", "Mercado", "d", 5, none⟩⟩

end Facturas2
